import Mathlib

/-!
Verification development for the `py-wrappers` repository (`src/shell.py`).

The file shallowly embeds the data model and the operations of the source:

* Python `dict[str, str]` becomes an association list `Dict` with first-match
  lookup (`dictGet`), membership (`dictContains`) and Python `dict.update`
  semantics (`dictUpdate`): an existing key keeps its position and gets the
  new value, a fresh key is appended.
* `shlex.split` (POSIX mode, `whitespace_split=True`, no comments) becomes the
  state machine `shlexAux`/`shlexSplit`, returning `Except ShlexError` where
  CPython raises `ValueError` for an unclosed quotation or a trailing escape.
* The `Locales` enum, the `Shell` class and the module-level `set_locale`
  become `Locales`, the functions under the `Shell` namespace and
  `set_locale`.  `Shell.KEYS` is a class attribute in Python, mutated in
  place by `Shell.__init__` via `self.KEYS.update(keys)`; it is therefore
  threaded explicitly as shared state (`classKeys`) rather than stored per
  instance.
* `subprocess.run` is split into the part the wrapper computes before the
  child runs (`Shell.prepare`, producing a `SpawnRequest`) and the part that
  depends on the child's exit (`finishRun`, parameterised by a
  `ChildOutcome`).  On POSIX, `subprocess` with a *list* argument and
  `shell=True` executes `/bin/sh -c args[0] args[1] ...`; `execArgv` and
  `shellScript` record that semantics.
-/

set_option autoImplicit false

instance instDecEqExcept {ε α : Type} [DecidableEq ε] [DecidableEq α] :
    DecidableEq (Except ε α) := fun a b =>
  match a, b with
  | Except.error x, Except.error y =>
    if h : x = y then isTrue (by rw [h]) else isFalse (by simp [h])
  | Except.ok x, Except.ok y =>
    if h : x = y then isTrue (by rw [h]) else isFalse (by simp [h])
  | Except.error _, Except.ok _ => isFalse (by simp)
  | Except.ok _, Except.error _ => isFalse (by simp)

/-- Model of Python `dict[str, str]`: an association list, first match wins. -/
abbrev Dict := List (String × String)

/-- Lookup: Python `d[k]` / `d.get(k)` (first matching key). -/
def dictGet : Dict → String → Option String
  | [], _ => none
  | (k2, v) :: rest, k => if k2 = k then some v else dictGet rest k

/-- Membership test: Python `k in d`. -/
def dictContains (d : Dict) (k : String) : Bool :=
  (dictGet d k).isSome

/-- Single-key write with Python `dict` semantics: an existing key keeps its
position and receives the new value, a fresh key is appended at the end. -/
def dictSet (d : Dict) (k v : String) : Dict :=
  if dictContains d k then d.map (fun p => if p.1 = k then (k, v) else p)
  else d ++ [(k, v)]

/-- Python `d.update(other)`: fold `dictSet` over the entries of `other`. -/
def dictUpdate (d : Dict) (other : Dict) : Dict :=
  other.foldl (fun acc p => dictSet acc p.1 p.2) d

/-- The single-quote character (written via its code point). -/
def squoteChar : Char := Char.ofNat 39

/-- The double-quote character (written via its code point). -/
def dquoteChar : Char := Char.ofNat 34

/-- The backslash character (written via its code point). -/
def backslashChar : Char := Char.ofNat 92

/-- The failure modes of CPython `shlex` in POSIX mode: `ValueError` with
message `No closing quotation` or `No escaped character`. -/
inductive ShlexError where
  | noClosingQuotation
  | noEscapedCharacter
  deriving Repr, DecidableEq

/-- Lexer states of CPython `shlex.read_token` as used by `shlex.split`
(posix, whitespace-split): between tokens, inside a word, inside single or
double quotes, and after a backslash seen in a word or inside double quotes. -/
inductive SState where
  | space
  | word
  | squote
  | dquote
  | escWord
  | escDquote
  deriving Repr, DecidableEq

/-- CPython `shlex.whitespace` membership. -/
def isShlexWhitespace (c : Char) : Bool :=
  c = ' ' || c = '\t' || c = '\r' || c = '\n'

/-- One pass of the CPython `shlex.split` state machine.  Arguments: remaining
input, lexer state, current token, the per-token `quoted` flag, and the
tokens emitted so far (reversed). -/
def shlexAux : List Char → SState → String → Bool → List String →
    Except ShlexError (List String)
  | [], .space, _, _, acc => Except.ok acc.reverse
  | [], .word, tok, quoted, acc =>
      if tok ≠ "" || quoted then Except.ok (tok :: acc).reverse
      else Except.ok acc.reverse
  | [], .squote, _, _, _ => Except.error ShlexError.noClosingQuotation
  | [], .dquote, _, _, _ => Except.error ShlexError.noClosingQuotation
  | [], .escWord, _, _, _ => Except.error ShlexError.noEscapedCharacter
  | [], .escDquote, _, _, _ => Except.error ShlexError.noEscapedCharacter
  | c :: cs, .space, tok, quoted, acc =>
      if isShlexWhitespace c then shlexAux cs .space "" false acc
      else if c = squoteChar then shlexAux cs .squote tok true acc
      else if c = dquoteChar then shlexAux cs .dquote tok true acc
      else if c = backslashChar then shlexAux cs .escWord tok quoted acc
      else shlexAux cs .word (tok.push c) quoted acc
  | c :: cs, .word, tok, quoted, acc =>
      if isShlexWhitespace c then
        if tok ≠ "" || quoted then shlexAux cs .space "" false (tok :: acc)
        else shlexAux cs .space "" false acc
      else if c = squoteChar then shlexAux cs .squote tok true acc
      else if c = dquoteChar then shlexAux cs .dquote tok true acc
      else if c = backslashChar then shlexAux cs .escWord tok quoted acc
      else shlexAux cs .word (tok.push c) quoted acc
  | c :: cs, .squote, tok, quoted, acc =>
      if c = squoteChar then shlexAux cs .word tok quoted acc
      else shlexAux cs .squote (tok.push c) quoted acc
  | c :: cs, .dquote, tok, quoted, acc =>
      if c = dquoteChar then shlexAux cs .word tok quoted acc
      else if c = backslashChar then shlexAux cs .escDquote tok quoted acc
      else shlexAux cs .dquote (tok.push c) quoted acc
  | c :: cs, .escWord, tok, quoted, acc =>
      shlexAux cs .word (tok.push c) quoted acc
  | c :: cs, .escDquote, tok, quoted, acc =>
      if c = backslashChar || c = dquoteChar then
        shlexAux cs .dquote (tok.push c) quoted acc
      else shlexAux cs .dquote ((tok.push backslashChar).push c) quoted acc

/-- CPython `shlex.split(s)` (posix mode, whitespace split, no comments),
as called on line 73 of `src/shell.py`. -/
def shlexSplit (s : String) : Except ShlexError (List String) :=
  shlexAux s.toList .space "" false []

/-- The `Locales` enum of `src/shell.py` (lines 19-21). -/
inductive Locales where
  | english
  | italian
  deriving Repr, DecidableEq

/-- Python `Locales[name]` (enum lookup by member name), returning `none`
where Python raises `KeyError`. -/
def Locales.fromName (s : String) : Option Locales :=
  if s = "english" then some Locales.english
  else if s = "italian" then some Locales.italian
  else none

/-- The literal `_map` dictionary of `Shell._get_locale_env`
(lines 89-92 of `src/shell.py`), kept as a lookup table. -/
def localeMap : List (Locales × String) :=
  [(Locales.english, "en_US"), (Locales.italian, "it_IT")]

/-- Python `_map[self.locale]`: first-match lookup in `localeMap`,
`none` where Python would raise `KeyError`. -/
def localeLookup (l : Locales) : Option String :=
  (localeMap.find? (fun p => p.1 == l)).map (fun p => p.2)

/-- The class attribute `Shell.KEYS` (lines 32-34 of `src/shell.py`). -/
def Shell.KEYS : Dict := [("LOCALE_KEY", "LC_ALL")]

/-- `Shell._get_locale_env` (lines 88-93): builds the one-entry dictionary
mapping the configured variable name to the locale string; `none` models a
`KeyError` from either dictionary subscript. -/
def Shell.get_locale_env (keys : Dict) (loc : Locales) : Option Dict :=
  match dictGet keys "LOCALE_KEY", localeLookup loc with
  | some k, some v => some [(k, v)]
  | _, _ => none

/-- Error outcomes of `Shell.run` visible in the embedding: `KeyError` from a
dictionary subscript, `ValueError` from `shlex.split`, and
`subprocess.CalledProcessError` (raised by `subprocess.run` when `check` is
true and the exit status is non-zero, carrying the status, the argument list
and the captured output). -/
inductive RunError where
  | keyError
  | valueError (e : ShlexError)
  | calledProcessError (returncode : Int) (args : List String)
      (stdout stderr : Option String)
  deriving Repr, DecidableEq

/-- Everything `Shell.run` hands to `subprocess.run` that the claims are
about: the tokenized argument list, the resolved child environment, and the
`shell` flag. -/
structure SpawnRequest where
  args : List String
  env : Dict
  shell : Bool
  deriving Repr, DecidableEq

/-- The observable behaviour of the spawned child process (its exit status
and captured output), a parameter of the model since the child is an
external OS process. -/
structure ChildOutcome where
  returncode : Int
  stdout : Option String
  stderr : Option String
  deriving Repr, DecidableEq

/-- `subprocess.CompletedProcess` as returned by `Shell.run`. -/
structure CompletedProcess where
  args : List String
  returncode : Int
  stdout : Option String
  stderr : Option String
  deriving Repr, DecidableEq

/-- Lines 70-72 of `Shell.run`: take the caller's environment or a copy of
`os.environ`, and inject the locale variable when the configured key is
absent.  The two `Except.error RunError.keyError` branches model the
`KeyError` a missing `"LOCALE_KEY"` entry would raise. -/
def resolveEnv (keys : Dict) (loc : Locales) (env? : Option Dict)
    (osEnviron : Dict) : Except RunError Dict :=
  match dictGet keys "LOCALE_KEY" with
  | none => Except.error RunError.keyError
  | some lockey =>
    let env0 := env?.getD osEnviron
    if dictContains env0 lockey then Except.ok env0
    else
      match Shell.get_locale_env keys loc with
      | none => Except.error RunError.keyError
      | some d => Except.ok (dictUpdate env0 d)

/-- `Shell.run` up to the call of `subprocess.run` (lines 70-75): resolve the
environment, then tokenize the command with `shlex.split`; on success the
spawn request records the token list, the environment and the `shell` flag
exactly as passed to `subprocess.run`. -/
def Shell.prepare (keys : Dict) (loc : Locales) (command : String)
    (env? : Option Dict) (osEnviron : Dict) (sh : Bool) :
    Except RunError SpawnRequest :=
  match resolveEnv keys loc env? osEnviron with
  | Except.error e => Except.error e
  | Except.ok env1 =>
    match shlexSplit command with
    | Except.error e => Except.error (RunError.valueError e)
    | Except.ok cmds => Except.ok (SpawnRequest.mk cmds env1 sh)

/-- The tail of `subprocess.run`: once the child has exited, raise
`CalledProcessError` when `check` is true and the status is non-zero,
otherwise build the `CompletedProcess`. -/
def finishRun (check : Bool) (req : SpawnRequest) (child : ChildOutcome) :
    Except RunError CompletedProcess :=
  if check && child.returncode != 0 then
    Except.error (RunError.calledProcessError child.returncode req.args
      child.stdout child.stderr)
  else
    Except.ok (CompletedProcess.mk req.args child.returncode
      child.stdout child.stderr)

/-- `Shell.run` (lines 49-86), parameterised by the ambient `os.environ` and
by the child's observable outcome. -/
def Shell.run (keys : Dict) (loc : Locales) (command : String)
    (env? : Option Dict) (osEnviron : Dict) (check sh : Bool)
    (child : ChildOutcome) : Except RunError CompletedProcess :=
  match Shell.prepare keys loc command env? osEnviron sh with
  | Except.error e => Except.error e
  | Except.ok req => finishRun check req child

/-- The caller-supplied mapping as it stands after `Shell.run` returns or
raises.  Line 70 aliases (`env = env`) rather than copies when the caller
passed a dictionary, and line 72 calls `dict.update` on that very object, so
the caller's mapping afterwards is the dictionary of line 72; when a
`KeyError` interrupts line 71 or 72 the mapping is still untouched. -/
def callerEnvAfter (keys : Dict) (loc : Locales) (env? : Option Dict) :
    Option Dict :=
  match env? with
  | none => none
  | some e =>
    match dictGet keys "LOCALE_KEY" with
    | none => some e
    | some lockey =>
      if dictContains e lockey then some e
      else
        match Shell.get_locale_env keys loc with
        | none => some e
        | some d => some (dictUpdate e d)

/-- `Shell.__init__` (lines 36-41).  `self.KEYS` resolves to the class
attribute `Shell.KEYS` and `dict.update` mutates it in place, so the
constructor returns the new instance's locale together with the new
class-level `KEYS` dictionary shared by every instance. -/
def Shell.init (classKeys : Dict) (loc : Locales) (keys? : Option Dict) :
    Locales × Dict :=
  (loc, match keys? with
        | none => classKeys
        | some ks => dictUpdate classKeys ks)

/-- The mutable state reachable from the module-level default instance
`_default_shell`: the shared class-level `KEYS` dictionary and the
instance's `locale` field. -/
structure DefaultShellState where
  keys : Dict
  locale : Locales
  deriving Repr, DecidableEq

/-- `_default_shell = Shell()` (line 96). -/
def defaultShell : DefaultShellState :=
  DefaultShellState.mk Shell.KEYS Locales.english

/-- Module-level `set_locale` (lines 101-107): look the name up in the
`Locales` enum — raising `KeyError` (a `LookupError`) and leaving the state
untouched when it is unknown — and otherwise store the variant in the
default instance's `locale` field. -/
def set_locale (st : DefaultShellState) (name : String) :
    Except RunError Unit × DefaultShellState :=
  match Locales.fromName name with
  | none => (Except.error RunError.keyError, st)
  | some lc => (Except.ok (), DefaultShellState.mk st.keys lc)

/-- The argument vector the OS finally executes for a spawn request: POSIX
`subprocess` with a list argument and `shell=True` runs
`/bin/sh -c args[0] args[1] ...`; with `shell=False` it runs the list
directly. -/
def execArgv (req : SpawnRequest) : List String :=
  if req.shell then "/bin/sh" :: "-c" :: req.args else req.args

/-- The command string the intermediate shell interpreter receives, when one
is used at all: with `shell=True`, `/bin/sh -c` takes only the first element
of the argument list as its command text. -/
def shellScript (req : SpawnRequest) : Option String :=
  if req.shell then req.args.head? else none

/-- Appending a fresh key: lookup of that key finds the appended value. -/
theorem dictGet_append_self (d : Dict) (k v : String)
    (h : dictContains d k = false) :
    dictGet (d ++ [(k, v)]) k = some v := by
  induction d with
  | nil => simp [dictGet]
  | cons p rest ih =>
    obtain ⟨k2, v2⟩ := p
    simp only [dictContains, dictGet, Option.isSome] at h ⊢
    by_cases hk : k2 = k
    · simp [hk] at h
    · simp only [hk, if_false] at h ⊢
      exact ih h

/-- Appending an entry leaves the lookup of every other key unchanged. -/
theorem dictGet_append_other (d : Dict) (k v k2 : String) (h : k2 ≠ k) :
    dictGet (d ++ [(k, v)]) k2 = dictGet d k2 := by
  induction d with
  | nil =>
    have hk : ¬ k = k2 := fun hh => h hh.symm
    simp [dictGet, hk]
  | cons p rest ih =>
    obtain ⟨k3, v3⟩ := p
    by_cases hk : k3 = k2
    · simp [dictGet, hk]
    · simp only [List.cons_append, dictGet, hk, if_false]
      exact ih

/-- `dict.update` with a single absent key appends the entry. -/
theorem dictUpdate_single_absent (d : Dict) (k v : String)
    (h : dictContains d k = false) :
    dictUpdate d [(k, v)] = d ++ [(k, v)] := by
  simp [dictUpdate, dictSet, h]

/-- `Shell._get_locale_env` under successful lookups. -/
theorem get_locale_env_eq (keys : Dict) (loc : Locales) (lockey v : String)
    (hkey : dictGet keys "LOCALE_KEY" = some lockey)
    (hv : localeLookup loc = some v) :
    Shell.get_locale_env keys loc = some [(lockey, v)] := by
  simp [Shell.get_locale_env, hkey, hv]

/-- The locale table is defined on every variant. -/
theorem localeLookup_total (l : Locales) : (localeLookup l).isSome = true := by
  cases l <;> decide

/-- Unfolding of `resolveEnv` when the configuration lookups succeed. -/
theorem resolveEnv_ok (keys : Dict) (loc : Locales) (env? : Option Dict)
    (osEnviron : Dict) (lockey v : String)
    (hkey : dictGet keys "LOCALE_KEY" = some lockey)
    (hv : localeLookup loc = some v) :
    resolveEnv keys loc env? osEnviron =
      (if dictContains (env?.getD osEnviron) lockey
       then Except.ok (env?.getD osEnviron)
       else Except.ok (dictUpdate (env?.getD osEnviron) [(lockey, v)])) := by
  simp [resolveEnv, hkey, get_locale_env_eq keys loc lockey v hkey hv]

/-- A successful `Shell.prepare` determines its parts: the environment came
from `resolveEnv`, the tokens from `shlexSplit`, and the flag is the one
passed. -/
theorem prepare_ok_elim (keys : Dict) (loc : Locales) (command : String)
    (env? : Option Dict) (osEnviron : Dict) (sh : Bool) (req : SpawnRequest)
    (h : Shell.prepare keys loc command env? osEnviron sh = Except.ok req) :
    resolveEnv keys loc env? osEnviron = Except.ok req.env ∧
    shlexSplit command = Except.ok req.args ∧ req.shell = sh := by
  unfold Shell.prepare at h
  cases hres : resolveEnv keys loc env? osEnviron with
  | error e => rw [hres] at h; exact absurd h (by simp)
  | ok env1 =>
    rw [hres] at h
    cases htok : shlexSplit command with
    | error e => rw [htok] at h; exact absurd h (by simp)
    | ok cmds =>
      rw [htok] at h
      simp only [Except.ok.injEq] at h
      subst h
      exact ⟨rfl, rfl, rfl⟩

/-- C1 (counterexample): on the call `run("echo hello | cat")` with the
default `shell=True`, the command string is tokenized first and the token
list is handed to `subprocess.run`, so the intermediate shell interpreter
receives only the first token `"echo"` as its command text — not the raw
command string `"echo hello | cat"` the claim requires. -/
theorem c1_counterexample :
    Shell.prepare Shell.KEYS Locales.english "echo hello | cat"
        (some [("LC_ALL", "en_US")]) [] true
      = Except.ok (SpawnRequest.mk ["echo", "hello", "|", "cat"]
          [("LC_ALL", "en_US")] true) ∧
    shellScript (SpawnRequest.mk ["echo", "hello", "|", "cat"]
        [("LC_ALL", "en_US")] true) = some "echo" ∧
    some "echo" ≠ some "echo hello | cat" := by decide

/-- C1 (amended): for every call to `run`, the command string is first
tokenized under POSIX shell rules; with `use_shell=false` the tokenized list
is executed as a direct program invocation, while with `use_shell=true` the
tokenized list (not the raw string) is handed to the shell layer, so the
shell interpreter receives only the first token as its command string and
the remaining tokens as additional shell arguments. -/
theorem c1_amended_exec_mode (keys : Dict) (loc : Locales) (command : String)
    (env? : Option Dict) (osEnviron : Dict) (sh : Bool)
    (toks : List String) (req : SpawnRequest)
    (htok : shlexSplit command = Except.ok toks)
    (hprep : Shell.prepare keys loc command env? osEnviron sh = Except.ok req) :
    req.args = toks ∧ req.shell = sh ∧
    execArgv req = (if sh then "/bin/sh" :: "-c" :: toks else toks) ∧
    shellScript req = (if sh then toks.head? else none) := by
  obtain ⟨henv, htok2, hsh⟩ :=
    prepare_ok_elim keys loc command env? osEnviron sh req hprep
  rw [htok] at htok2
  have hargs : req.args = toks := (Except.ok.inj htok2).symm
  simp [execArgv, shellScript, hargs, hsh]

/-- Witness for the amended C1: a concrete successful call with
`shell=True`, showing the exec-level argument vector and the script the
shell receives. -/
theorem c1_witness :
    (SpawnRequest.mk ["ls", "-l"] [("LC_ALL", "en_US")] true).args
        = ["ls", "-l"] ∧
    (SpawnRequest.mk ["ls", "-l"] [("LC_ALL", "en_US")] true).shell = true ∧
    execArgv (SpawnRequest.mk ["ls", "-l"] [("LC_ALL", "en_US")] true) =
      (if true then "/bin/sh" :: "-c" :: ["ls", "-l"] else ["ls", "-l"]) ∧
    shellScript (SpawnRequest.mk ["ls", "-l"] [("LC_ALL", "en_US")] true) =
      (if true then (["ls", "-l"] : List String).head? else none) :=
  c1_amended_exec_mode Shell.KEYS Locales.english "ls -l"
    (some [("LC_ALL", "en_US")]) [] true ["ls", "-l"]
    (SpawnRequest.mk ["ls", "-l"] [("LC_ALL", "en_US")] true)
    (by decide) (by decide)

/-- C7: the locale lookup table is a total function on the `Locales`
enumeration — every variant has exactly one table entry, and translating any
locale to its string never fails with a missing key. -/
theorem c7_locale_table_total :
    ∀ l : Locales, (localeMap.filter (fun p => p.1 == l)).length = 1 ∧
      (localeLookup l).isSome = true := by
  intro l
  cases l <;> exact ⟨by decide, by decide⟩

/-- C8 (counterexample): constructing a `Shell` with a caller-supplied keys
mapping is a mutation of shared configuration: `self.KEYS.update(keys)`
updates the class attribute `Shell.KEYS` in place, so after
`Shell(keys={"LOCALE_KEY": "LANG"})` the class-level mapping — shared by
every instance, including the default singleton — is no longer the default
one, refuting the claim that `set_locale` is the only mutator. -/
theorem c8_counterexample :
    (Shell.init Shell.KEYS Locales.english
        (some [("LOCALE_KEY", "LANG")])).2 ≠ Shell.KEYS := by decide

/-- C8 (amended): `set_locale` mutates only the current locale of the
default instance (the key mapping is untouched), `run` mutates no
configuration, and constructing a `Shell` without a keys argument mutates
nothing; but constructing a `Shell` with a caller-supplied keys mapping
merges it into the class-level `KEYS` dictionary shared by every existing
instance (the default singleton included), and this really changes it. -/
theorem c8_amended_mutation_frame :
    (∀ st name, ((set_locale st name).2).keys = st.keys) ∧
    (∀ classKeys loc, (Shell.init classKeys loc none).2 = classKeys) ∧
    (∀ classKeys loc ks,
      (Shell.init classKeys loc (some ks)).2 = dictUpdate classKeys ks) ∧
    (Shell.init Shell.KEYS Locales.english
        (some [("LOCALE_KEY", "LANG")])).2 ≠ Shell.KEYS := by
  refine ⟨?_, ?_, ?_, by decide⟩
  · intro st name
    cases hl : Locales.fromName name <;> simp [set_locale, hl]
  · intro ck loc
    rfl
  · intro ck loc ks
    rfl

/-- C2: after `set_locale(name)` succeeds for a supported variant, `run`
with no explicit environment (and an ambient environment that does not
already define the configured variable) produces a child environment whose
configured locale variable holds exactly the table string of that variant;
the table maps `english` to `"en_US"` and `italian` to `"it_IT"`. -/
theorem c2_set_locale_then_run (st : DefaultShellState) (name : String)
    (lc : Locales) (lockey : String) (osEnviron : Dict) (command : String)
    (sh : Bool) (req : SpawnRequest)
    (hname : Locales.fromName name = some lc)
    (hkey : dictGet st.keys "LOCALE_KEY" = some lockey)
    (habs : dictContains osEnviron lockey = false)
    (hrun : Shell.prepare ((set_locale st name).2).keys
        ((set_locale st name).2).locale command none osEnviron sh
        = Except.ok req) :
    dictGet req.env lockey = localeLookup lc ∧
    localeLookup Locales.english = some "en_US" ∧
    localeLookup Locales.italian = some "it_IT" := by
  have hst : (set_locale st name).2 = DefaultShellState.mk st.keys lc := by
    simp [set_locale, hname]
  rw [hst] at hrun
  obtain ⟨v, hv⟩ := Option.isSome_iff_exists.mp (localeLookup_total lc)
  obtain ⟨henv, htok, hsh⟩ := prepare_ok_elim _ _ _ _ _ _ _ hrun
  rw [resolveEnv_ok st.keys lc none osEnviron lockey v hkey hv] at henv
  simp [Option.getD, habs, dictUpdate_single_absent osEnviron lockey v habs]
    at henv
  refine ⟨?_, by decide, by decide⟩
  rw [← henv, dictGet_append_self osEnviron lockey v habs, hv]

/-- Witness for C2: starting from the italian locale, `set_locale "english"`
followed by a run with no explicit environment and an empty ambient
environment injects `LC_ALL = en_US` into the child environment. -/
theorem c2_witness :
    dictGet (SpawnRequest.mk ["true"] [("LC_ALL", "en_US")] true).env "LC_ALL"
        = localeLookup Locales.english ∧
    localeLookup Locales.english = some "en_US" ∧
    localeLookup Locales.italian = some "it_IT" :=
  c2_set_locale_then_run (DefaultShellState.mk Shell.KEYS Locales.italian)
    "english" Locales.english "LC_ALL" [] "true" true
    (SpawnRequest.mk ["true"] [("LC_ALL", "en_US")] true)
    (by decide) (by decide) (by decide) (by decide)

/-- C3: when the environment parameter is omitted, the base child
environment is the process environment; if the configured variable is
already there the environment is passed through unchanged, and if it is
absent exactly the one locale entry is appended — every other key still
looks up to its value from the process environment. -/
theorem c3_default_env (keys : Dict) (loc : Locales) (command : String)
    (osEnviron : Dict) (sh : Bool) (lockey v : String) (req : SpawnRequest)
    (hkey : dictGet keys "LOCALE_KEY" = some lockey)
    (hv : localeLookup loc = some v)
    (hrun : Shell.prepare keys loc command none osEnviron sh = Except.ok req) :
    (dictContains osEnviron lockey = true → req.env = osEnviron) ∧
    (dictContains osEnviron lockey = false →
      req.env = osEnviron ++ [(lockey, v)] ∧
      dictGet req.env lockey = some v ∧
      (∀ k, k ≠ lockey → dictGet req.env k = dictGet osEnviron k)) := by
  obtain ⟨henv, htok, hsh⟩ := prepare_ok_elim _ _ _ _ _ _ _ hrun
  rw [resolveEnv_ok keys loc none osEnviron lockey v hkey hv] at henv
  constructor
  · intro hc
    simp [Option.getD, hc] at henv
    exact henv.symm
  · intro hc
    simp [Option.getD, hc, dictUpdate_single_absent osEnviron lockey v hc]
      at henv
    refine ⟨henv.symm, ?_, ?_⟩
    · rw [← henv]
      exact dictGet_append_self osEnviron lockey v hc
    · intro k hk
      rw [← henv]
      exact dictGet_append_other osEnviron lockey v k hk

/-- Witness for C3: with ambient environment `PATH=/bin` (no `LC_ALL`), the
child environment is the ambient one plus the single appended locale
entry. -/
theorem c3_witness :
    (dictContains [("PATH", "/bin")] "LC_ALL" = true →
      (SpawnRequest.mk ["true"] [("PATH", "/bin"), ("LC_ALL", "en_US")]
          true).env = [("PATH", "/bin")]) ∧
    (dictContains [("PATH", "/bin")] "LC_ALL" = false →
      (SpawnRequest.mk ["true"] [("PATH", "/bin"), ("LC_ALL", "en_US")]
          true).env = [("PATH", "/bin")] ++ [("LC_ALL", "en_US")] ∧
      dictGet (SpawnRequest.mk ["true"]
          [("PATH", "/bin"), ("LC_ALL", "en_US")] true).env "LC_ALL"
        = some "en_US" ∧
      (∀ k, k ≠ "LC_ALL" →
        dictGet (SpawnRequest.mk ["true"]
            [("PATH", "/bin"), ("LC_ALL", "en_US")] true).env k
          = dictGet [("PATH", "/bin")] k)) :=
  c3_default_env Shell.KEYS Locales.english "true" [("PATH", "/bin")] true
    "LC_ALL" "en_US"
    (SpawnRequest.mk ["true"] [("PATH", "/bin"), ("LC_ALL", "en_US")] true)
    (by decide) (by decide) (by decide)

/-- C4: a caller-supplied environment that already defines the configured
locale key is passed to the child verbatim — in particular that key's value
round-trips unchanged. -/
theorem c4_no_overwrite (keys : Dict) (loc : Locales) (command : String)
    (e osEnviron : Dict) (sh : Bool) (lockey : String) (req : SpawnRequest)
    (hkey : dictGet keys "LOCALE_KEY" = some lockey)
    (hin : dictContains e lockey = true)
    (hrun : Shell.prepare keys loc command (some e) osEnviron sh
        = Except.ok req) :
    req.env = e ∧ dictGet req.env lockey = dictGet e lockey := by
  obtain ⟨henv, htok, hsh⟩ := prepare_ok_elim _ _ _ _ _ _ _ hrun
  unfold resolveEnv at henv
  rw [hkey] at henv
  simp [Option.getD, hin] at henv
  exact ⟨henv.symm, by rw [← henv]⟩

/-- Witness for C4: a caller environment carrying `LC_ALL=de_DE` reaches the
child with that very entry. -/
theorem c4_witness :
    (SpawnRequest.mk ["true"] [("LC_ALL", "de_DE")] true).env
        = [("LC_ALL", "de_DE")] ∧
    dictGet (SpawnRequest.mk ["true"] [("LC_ALL", "de_DE")] true).env "LC_ALL"
        = dictGet [("LC_ALL", "de_DE")] "LC_ALL" :=
  c4_no_overwrite Shell.KEYS Locales.english "true" [("LC_ALL", "de_DE")] []
    true "LC_ALL" (SpawnRequest.mk ["true"] [("LC_ALL", "de_DE")] true)
    (by decide) (by decide) (by decide)

/-- C5: `set_locale` with a name that is not a `Locales` variant fails with
the `KeyError` (a `LookupError`) of the enum lookup and performs no partial
mutation: the default configuration is left unchanged, so a subsequent `run`
behaves exactly as before the failed call. -/
theorem c5_unknown_locale (st : DefaultShellState) (name : String)
    (h : Locales.fromName name = none) :
    (set_locale st name).1 = Except.error RunError.keyError ∧
    (set_locale st name).2 = st ∧
    (∀ command osEnviron sh,
      Shell.prepare ((set_locale st name).2).keys
          ((set_locale st name).2).locale command none osEnviron sh
        = Shell.prepare st.keys st.locale command none osEnviron sh) := by
  simp [set_locale, h]

/-- Witness for C5: `set_locale("klingon")` on the default instance fails
and leaves the state untouched. -/
theorem c5_witness :
    (set_locale defaultShell "klingon").1 = Except.error RunError.keyError ∧
    (set_locale defaultShell "klingon").2 = defaultShell ∧
    (∀ command osEnviron sh,
      Shell.prepare ((set_locale defaultShell "klingon").2).keys
          ((set_locale defaultShell "klingon").2).locale command none
          osEnviron sh
        = Shell.prepare defaultShell.keys defaultShell.locale command none
            osEnviron sh) :=
  c5_unknown_locale defaultShell "klingon" (by decide)

/-- C6: when the child exits with a non-zero status, `run` with `check=true`
fails with `CalledProcessError` carrying the exit code and the captured
output, while `run` with `check=false` returns the normal `CompletedProcess`
carrying that exit code without raising. -/
theorem c6_nonzero_exit (keys : Dict) (loc : Locales) (command : String)
    (env? : Option Dict) (osEnviron : Dict) (sh : Bool)
    (child : ChildOutcome) (req : SpawnRequest)
    (hnz : child.returncode ≠ 0)
    (hprep : Shell.prepare keys loc command env? osEnviron sh
        = Except.ok req) :
    Shell.run keys loc command env? osEnviron true sh child =
      Except.error (RunError.calledProcessError child.returncode req.args
        child.stdout child.stderr) ∧
    Shell.run keys loc command env? osEnviron false sh child =
      Except.ok (CompletedProcess.mk req.args child.returncode
        child.stdout child.stderr) := by
  unfold Shell.run
  rw [hprep]
  unfold finishRun
  simp [hnz]

/-- Witness for C6: `run("false")` whose child exits with status 1 — an
error carrying code 1 under `check=true`, a normal result with code 1 under
`check=false`. -/
theorem c6_witness :
    Shell.run Shell.KEYS Locales.english "false" (some [("LC_ALL", "en_US")])
        [] true true (ChildOutcome.mk 1 (some "") (some "")) =
      Except.error (RunError.calledProcessError 1 ["false"]
        (some "") (some "")) ∧
    Shell.run Shell.KEYS Locales.english "false" (some [("LC_ALL", "en_US")])
        [] false true (ChildOutcome.mk 1 (some "") (some "")) =
      Except.ok (CompletedProcess.mk ["false"] 1 (some "") (some "")) :=
  c6_nonzero_exit Shell.KEYS Locales.english "false"
    (some [("LC_ALL", "en_US")]) [] true
    (ChildOutcome.mk 1 (some "") (some ""))
    (SpawnRequest.mk ["false"] [("LC_ALL", "en_US")] true)
    (by decide) (by decide)

/-- C9: when the caller supplies an environment lacking the configured
locale key, `run` updates the caller's own mapping in place (line 70 aliases
it and line 72 calls `dict.update` on it), so after the call the caller's
mapping contains the injected entry — and it is exactly that mutated mapping
that reaches the child. -/
theorem c9_caller_env_mutated (keys : Dict) (loc : Locales) (e : Dict)
    (lockey v : String)
    (hkey : dictGet keys "LOCALE_KEY" = some lockey)
    (hv : localeLookup loc = some v)
    (habs : dictContains e lockey = false) :
    callerEnvAfter keys loc (some e) = some (e ++ [(lockey, v)]) ∧
    dictContains (e ++ [(lockey, v)]) lockey = true ∧
    (∀ command osEnviron sh req,
      Shell.prepare keys loc command (some e) osEnviron sh = Except.ok req →
      req.env = e ++ [(lockey, v)]) := by
  refine ⟨?_, ?_, ?_⟩
  · simp [callerEnvAfter, hkey, habs,
      get_locale_env_eq keys loc lockey v hkey hv,
      dictUpdate_single_absent e lockey v habs]
  · simp [dictContains, dictGet_append_self e lockey v habs]
  · intro command osEnviron sh req hrun
    obtain ⟨henv, htok, hsh⟩ := prepare_ok_elim _ _ _ _ _ _ _ hrun
    rw [resolveEnv_ok keys loc (some e) osEnviron lockey v hkey hv] at henv
    simp [Option.getD, habs, dictUpdate_single_absent e lockey v habs] at henv
    exact henv.symm

/-- Witness for C9: a caller mapping holding only `PATH=/bin` has the
`LC_ALL` entry appended to it by the call. -/
theorem c9_witness :
    callerEnvAfter Shell.KEYS Locales.english (some [("PATH", "/bin")]) =
      some ([("PATH", "/bin")] ++ [("LC_ALL", "en_US")]) ∧
    dictContains ([("PATH", "/bin")] ++ [("LC_ALL", "en_US")]) "LC_ALL"
        = true ∧
    (∀ command osEnviron sh req,
      Shell.prepare Shell.KEYS Locales.english command
          (some [("PATH", "/bin")]) osEnviron sh = Except.ok req →
      req.env = [("PATH", "/bin")] ++ [("LC_ALL", "en_US")]) :=
  c9_caller_env_mutated Shell.KEYS Locales.english [("PATH", "/bin")]
    "LC_ALL" "en_US" (by decide) (by decide) (by decide)

/-- C10: a command string that `shlex.split` cannot tokenize makes `run`
fail with the tokenizer's `ValueError` before any spawn request is built (so
no child process is spawned), for any `check` flag and any would-be child
outcome. -/
theorem c10_tokenize_error (keys : Dict) (loc : Locales) (command : String)
    (env? : Option Dict) (osEnviron : Dict) (check sh : Bool)
    (child : ChildOutcome) (err : ShlexError) (env1 : Dict)
    (htok : shlexSplit command = Except.error err)
    (henv : resolveEnv keys loc env? osEnviron = Except.ok env1) :
    Shell.prepare keys loc command env? osEnviron sh =
      Except.error (RunError.valueError err) ∧
    Shell.run keys loc command env? osEnviron check sh child =
      Except.error (RunError.valueError err) := by
  have hp : Shell.prepare keys loc command env? osEnviron sh =
      Except.error (RunError.valueError err) := by
    unfold Shell.prepare
    rw [henv, htok]
  refine ⟨hp, ?_⟩
  unfold Shell.run
  rw [hp]

/-- Witness for C10: a command with an unclosed single quote fails with the
`No closing quotation` tokenization error. -/
theorem c10_witness :
    Shell.prepare Shell.KEYS Locales.english
        ("printf " ++ String.singleton squoteChar ++ "unclosed")
        (some [("LC_ALL", "en_US")]) [] true =
      Except.error (RunError.valueError ShlexError.noClosingQuotation) ∧
    Shell.run Shell.KEYS Locales.english
        ("printf " ++ String.singleton squoteChar ++ "unclosed")
        (some [("LC_ALL", "en_US")]) [] true true
        (ChildOutcome.mk 0 none none) =
      Except.error (RunError.valueError ShlexError.noClosingQuotation) :=
  c10_tokenize_error Shell.KEYS Locales.english
    ("printf " ++ String.singleton squoteChar ++ "unclosed")
    (some [("LC_ALL", "en_US")]) [] true true (ChildOutcome.mk 0 none none)
    ShlexError.noClosingQuotation [("LC_ALL", "en_US")]
    (by decide) (by decide)
